import Mathlib

/-!
Verification of the ArcadisPInsight procurement analytics core: a shallow
embedding of the data-validation, filtering, aggregation, derived-metric,
insight-rule and chart-building logic, with theorems settling the spec's
claims about it.

Tables are lists of typed records; pandas DataFrame columns read from a file
are lists of cells that are numeric, string or null; missing values arising
from left merges are `Option`s (a NaN comparison in pandas is false, which the
filters below reproduce by matching on `none`).
-/

/-- A cell of a parsed table: numeric, string, or missing (NaN). -/
inductive Cell where
  | num (q : ℚ)
  | str (s : String)
  | null
deriving DecidableEq, Repr

/-- A parsed table (pandas DataFrame): column names plus rows, each row an
association list from column name to cell. -/
structure DataTable where
  cols : List String
  rows : List (List (String × Cell))
deriving DecidableEq, Repr

/-- Column access `data[c]`: the cell of each row under column `c`
(missing entries read as null). -/
def DataTable.col (t : DataTable) (c : String) : List Cell :=
  t.rows.map (fun r => (r.lookup c).getD Cell.null)

/-- `pd.api.types.is_numeric_dtype`: a parsed column has numeric dtype iff
every cell is numeric or missing. -/
def is_numeric_dtype (cells : List Cell) : Bool :=
  cells.all fun c => match c with
    | .num _ => true
    | .null => true
    | .str _ => false

/-- `series.isnull().sum()`: the number of missing cells. -/
def null_count (cells : List Cell) : Nat :=
  (cells.filter (fun c => c = Cell.null)).length

/-- An uploaded file: its name (for the extension check) and the result of
parsing its bytes; `none` models a parsing exception, caught by
`validate_data`'s `try`/`except`. -/
structure UploadFile where
  name : String
  parsed : Option DataTable

/-- Python's `str.endswith(suffix)` on the file name. -/
def ends_with (s suffix : String) : Bool :=
  decide (suffix.data.length ≤ s.data.length) &&
    decide (s.data.drop (s.data.length - suffix.data.length) = suffix.data)

/-- The fixed required-column schema per declared data type
(`validate_data`'s `required_columns` lists). -/
def required_columns (data_type : String) : List String :=
  if data_type = "Spend Data" then
    ["Supplier", "Category", "SubCategory", "BusinessUnit", "Date", "Amount"]
  else if data_type = "Supplier Master Data" then
    ["SupplierID", "SupplierName", "Category", "Country", "City", "ContactEmail"]
  else if data_type = "Contract Data" then
    ["ContractID", "SupplierID", "StartDate", "EndDate", "Value", "Category"]
  else if data_type = "Performance Data" then
    ["SupplierID", "Quarter", "DeliveryScore", "QualityScore", "ResponsivenessScore", "OverallScore"]
  else []

/-- The `[col for col in required_columns if col not in data.columns]`
comprehension. -/
def missing_columns (data_type : String) (t : DataTable) : List String :=
  (required_columns data_type).filter (fun c => ¬ c ∈ t.cols)

/-- The rejection message for missing columns. -/
def missing_columns_message (missing : List String) : String :=
  "Missing required columns: " ++ String.intercalate ", " missing

/-- `data_manager.validate_data(file, data_type)`: returns
`(is_valid, message, data)`. The extension is checked first; a parse failure
(`parsed = none`) is the exception path caught by the surrounding
`try`/`except`; then the declared type's required columns are checked, and for
Spend Data additionally the Amount dtype and null Suppliers. -/
def validate_data (file : UploadFile) (data_type : String) :
    Bool × String × Option DataTable :=
  if ends_with file.name ".csv" ∨ ends_with file.name ".xlsx" then
    match file.parsed with
    | none => (false, "Error during validation: parse error", none)
    | some data =>
      if data_type = "Spend Data" then
        let missing := missing_columns data_type data
        if missing ≠ [] then (false, missing_columns_message missing, none)
        else if ¬ is_numeric_dtype (data.col "Amount") then
          (false, "Amount column must contain numeric values", none)
        else if 0 < null_count (data.col "Supplier") then
          (false, "Found " ++ toString (null_count (data.col "Supplier")) ++
            " rows with missing supplier information", none)
        else (true, "Data validated successfully", some data)
      else
        let missing := missing_columns data_type data
        if data_type = "Supplier Master Data" ∨ data_type = "Contract Data" ∨
            data_type = "Performance Data" then
          if missing ≠ [] then (false, missing_columns_message missing, none)
          else (true, "Data validated successfully", some data)
        else (true, "Data validated successfully", some data)
  else
    (false, "Unsupported file type. Please upload a CSV or Excel file.", none)

/-- The in-memory Data Store: the four tables held in session state. -/
structure DataStore where
  spend_data : DataTable
  supplier_data : DataTable
  contract_data : DataTable
  performance_data : DataTable
deriving DecidableEq, Repr

/-- `data_type_map` followed by the session-state assignment: replace the one
table selected by the declared data type. -/
def set_table (store : DataStore) (data_type : String) (d : DataTable) : DataStore :=
  if data_type = "Spend Data" then { store with spend_data := d }
  else if data_type = "Supplier Master Data" then { store with supplier_data := d }
  else if data_type = "Contract Data" then { store with contract_data := d }
  else if data_type = "Performance Data" then { store with performance_data := d }
  else store

/-- The upload handler in `app.py`: validate, and only on success replace the
selected table (`if is_valid: st.session_state[state_var] = data`). On failure
the store is untouched. -/
def upload_step (store : DataStore) (file : UploadFile) (data_type : String) : DataStore :=
  match validate_data file data_type with
  | (true, _, some d) => set_table store data_type d
  | _ => store

/-! ## Filter Engine (category_intelligence.py / supplier_risk.py) -/

/-- A spend record row: the columns the Category Intelligence filters and
aggregations touch. -/
structure SpendRow where
  supplier : String
  category : String
  subCategory : String
  businessUnit : String
  month : String
  amount : ℚ
deriving DecidableEq, Repr

/-- `if selected_category != "All Categories": filtered = filtered[filtered["Category"] == selected_category]`. -/
def filter_by_category (sel : String) (t : List SpendRow) : List SpendRow :=
  if sel = "All Categories" then t
  else t.filter (fun r => r.category = sel)

/-- `if selected_bu != "All Business Units": filtered = filtered[filtered["BusinessUnit"] == selected_bu]`. -/
def filter_by_business_unit (sel : String) (t : List SpendRow) : List SpendRow :=
  if sel = "All Business Units" then t
  else t.filter (fun r => r.businessUnit = sel)

/-! ## Aggregator and derived metrics -/

/-- The distinct values of a column (`unique()` / distinct group keys), in
first-occurrence order. -/
def distinct {α : Type} [DecidableEq α] (l : List α) : List α :=
  l.foldl (fun acc x => if x ∈ acc then acc else acc ++ [x]) []

/-- `groupby(key)["Amount"].sum()` over keyed amounts: one `(key, total)` pair
per distinct key. -/
def group_sum (rows : List (String × ℚ)) : List (String × ℚ) :=
  (distinct (rows.map Prod.fst)).map
    (fun k => (k, ((rows.filter (fun r => r.1 = k)).map Prod.snd).sum))

/-- Insert into a list kept in descending order of the rational key. -/
def insert_desc {α : Type} (key : α → ℚ) (x : α) : List α → List α
  | [] => [x]
  | y :: ys => if key y ≤ key x then x :: y :: ys else y :: insert_desc key x ys

/-- `sort_values(measure, ascending=False)`: descending insertion sort. -/
def sort_desc {α : Type} (key : α → ℚ) (l : List α) : List α :=
  l.foldr (insert_desc key) []

/-- `suppliers_df`: per-supplier spend totals, sorted descending and truncated
to the top 10 (`category_intelligence.py` lines 140-141). -/
def suppliers_df (rows : List (String × ℚ)) : List (String × ℚ) :=
  (sort_desc Prod.snd (group_sum rows)).take 10

/-- `filtered_data["Amount"].sum()`. -/
def total_spend (rows : List (String × ℚ)) : ℚ :=
  (rows.map Prod.snd).sum

/-- `top3_spend = suppliers_df.head(3)["Amount"].sum() if len(suppliers_df) >= 3 else suppliers_df["Amount"].sum()`. -/
def top3_spend (rows : List (String × ℚ)) : ℚ :=
  if 3 ≤ (suppliers_df rows).length then
    (((suppliers_df rows).take 3).map Prod.snd).sum
  else ((suppliers_df rows).map Prod.snd).sum

/-- `top3_concentration = (top3_spend / total_category_spend * 100) if total_category_spend > 0 else 0`. -/
def top3_concentration (rows : List (String × ℚ)) : ℚ :=
  if 0 < total_spend rows then top3_spend rows / total_spend rows * 100 else 0

/-- The trend statistic of `category_intelligence.py` lines 198-200: from the
chronologically ordered monthly totals, `change_pct = ((last - first) / first
* 100) if first > 0 else 0` with `first = iloc[0]` and `last = iloc[-1]`. -/
def period_change_pct (monthly : List ℚ) : ℚ :=
  let first := monthly.head?.getD 0
  let last := monthly.getLast?.getD 0
  if 0 < first then (last - first) / first * 100 else 0

/-- Spend percentile as computed in the Supplier 360° view
(`supplier_relationship.py` line 86):
`(spend_data.groupby("Supplier")["Amount"].sum() <= total_spend).mean() * 100`. -/
def spend_percentile_view360 (totals : List ℚ) (myTotal : ℚ) : ℚ :=
  (((totals.filter (fun x => x ≤ myTotal)).length : ℚ) / (totals.length : ℚ)) * 100

/-- Spend percentile as computed in the Segmentation Overview
(`supplier_relationship.py` line 480): the same ratio, but
`... if total_spend > 0 else 0`. -/
def spend_percentile_seg (totals : List ℚ) (myTotal : ℚ) : ℚ :=
  if 0 < myTotal then spend_percentile_view360 totals myTotal else 0

/-! ## Insight rules (category_intelligence.py lines 176-181) -/

/-- The three supplier-concentration narrative templates. -/
inductive ConcentrationInsight where
  | dependencyRisk
  | fragmentation
  | balanced
deriving DecidableEq, Repr

/-- The `if`/`elif` chain on `top3_concentration` and `len(suppliers_df)`:
`> 75` → dependency risk; `< 30 and len > 7` → fragmentation;
`50 <= c <= 75` → balanced; otherwise no message. -/
def concentration_insight (c : ℚ) (num_suppliers : Nat) : Option ConcentrationInsight :=
  if 75 < c then some .dependencyRisk
  else if c < 30 ∧ 7 < num_suppliers then some .fragmentation
  else if 50 ≤ c ∧ c ≤ 75 then some .balanced
  else none

/-! ## Heatmap builder (visualizations.py, create_risk_heatmap) -/

/-- A row as seen by the heatmap: its x-dimension value, y-dimension value and
the measure (Amount). -/
structure HeatRow where
  x : String
  y : String
  amount : ℚ
deriving DecidableEq, Repr

/-- The monetary cell label: `$vM` for values ≥ 1,000,000, `$vK` for values
≥ 1,000, plain dollars otherwise. -/
inductive MoneyLabel where
  | millions (v : ℚ)
  | thousands (v : ℚ)
  | dollars (v : ℚ)
deriving DecidableEq, Repr

/-- The annotation formatting of `create_risk_heatmap` lines 178-183. -/
def format_money (v : ℚ) : MoneyLabel :=
  if 1000000 ≤ v then .millions (v / 1000000)
  else if 1000 ≤ v then .thousands (v / 1000)
  else .dollars v

/-- One rendered cell annotation: position, label, and whether the text is the
light color (white) rather than dark (black). -/
structure HeatAnnotation where
  x : String
  y : String
  label : MoneyLabel
  lightText : Bool
deriving DecidableEq, Repr

/-- The chart returned by the heatmap builder: either the explicit empty-state
figure with its message, or a grid of cells with their annotations. -/
inductive HeatmapFig where
  | emptyState (message : String)
  | grid (cells : List (String × String × ℚ)) (annotations : List HeatAnnotation)
deriving DecidableEq, Repr

/-- `data[x_dim].unique()`. -/
def heat_xs (t : List HeatRow) : List String := distinct (t.map (fun r => r.x))

/-- `data[y_dim].unique()`. -/
def heat_ys (t : List HeatRow) : List String := distinct (t.map (fun r => r.y))

/-- The value of a pivot cell: the summed measure over rows matching both
dimension values; a (y, x) pair with no matching rows is `fillna(0)`-ed to 0. -/
def cell_value (t : List HeatRow) (yv xv : String) : ℚ :=
  ((t.filter (fun r => r.y = yv ∧ r.x = xv)).map (fun r => r.amount)).sum

/-- `df_pivot` after `fillna(0)`: one `(y, x, value)` cell for every pair of
distinct dimension values. -/
def grid_cells (t : List HeatRow) : List (String × String × ℚ) :=
  (heat_ys t).flatMap (fun yv => (heat_xs t).map (fun xv => (yv, xv, cell_value t yv xv)))

/-- `max_value = df_pivot.values.max()`. -/
def grid_max (t : List HeatRow) : ℚ :=
  ((grid_cells t).map (fun c => c.2.2)).max?.getD 0

/-- The annotation loop: zero cells are skipped; otherwise the label is the
money-formatted value and the font is white exactly when the value exceeds
half the grid maximum. -/
def grid_annotations (t : List HeatRow) : List HeatAnnotation :=
  (grid_cells t).filterMap (fun c =>
    if c.2.2 = 0 then none
    else some ⟨c.2.1, c.1, format_money c.2.2, decide (grid_max t / 2 < c.2.2)⟩)

/-- `create_risk_heatmap(data, x_dim, y_dim, value)`: the empty-state figure
when the data is empty or either dimension has fewer than 2 distinct values;
otherwise the pivoted grid with its annotations. -/
def create_risk_heatmap (t : List HeatRow) : HeatmapFig :=
  if t.isEmpty ∨ (heat_xs t).length < 2 ∨ (heat_ys t).length < 2 then
    .emptyState "Not enough data to generate heatmap. Try adjusting your filters."
  else
    .grid (grid_cells t) (grid_annotations t)

/-! ## Supplier performance ranking (visualizations.py, create_supplier_chart) -/

/-- A performance record row. -/
structure PerfRow where
  supplierID : String
  quarter : String
  deliveryScore : ℚ
  qualityScore : ℚ
  responsivenessScore : ℚ
  overallScore : ℚ
deriving DecidableEq, Repr

/-- A supplier master record row (the columns these views touch). -/
structure SupplierRow where
  supplierID : String
  supplierName : String
  category : String
  country : String
deriving DecidableEq, Repr

/-- `performance_data.merge(supplier_data[...], on="SupplierID", how="left")`:
each performance row is paired with every matching supplier row, or with
`none` (NaN supplier columns) when no supplier matches. -/
def merge_left_perf (perf : List PerfRow) (sup : List SupplierRow) :
    List (PerfRow × Option SupplierRow) :=
  perf.flatMap (fun p =>
    match sup.filter (fun s => s.supplierID = p.supplierID) with
    | [] => [(p, none)]
    | ms => ms.map (fun s => (p, some s)))

/-- The merged rows that survive `groupby(["SupplierID", "SupplierName",
"Category"])`: pandas groupby drops rows whose group keys are NaN, i.e. the
unmatched rows. -/
def matched_rows (perf : List PerfRow) (sup : List SupplierRow) :
    List (PerfRow × SupplierRow) :=
  (merge_left_perf perf sup).filterMap (fun pr => pr.2.map (fun s => (pr.1, s)))

/-- The distinct `(SupplierID, SupplierName, Category)` group keys. -/
def supplier_group_keys (perf : List PerfRow) (sup : List SupplierRow) :
    List (String × String × String) :=
  distinct ((matched_rows perf sup).map
    (fun pr => (pr.1.supplierID, pr.2.supplierName, pr.2.category)))

/-- `merged.groupby([...])[metric].mean()`: the per-key mean of the metric. -/
def group_mean (perf : List PerfRow) (sup : List SupplierRow)
    (metric : PerfRow → ℚ) (k : String × String × String) : ℚ :=
  let vals := ((matched_rows perf sup).filter
    (fun pr => pr.1.supplierID = k.1 ∧ pr.2.supplierName = k.2.1 ∧
      pr.2.category = k.2.2)).map (fun pr => metric pr.1)
  vals.sum / (vals.length : ℚ)

/-- `create_supplier_chart`'s ranking data: group means sorted descending by
the metric and truncated to the top 15. -/
def create_supplier_ranking (perf : List PerfRow) (sup : List SupplierRow)
    (metric : PerfRow → ℚ) : List ((String × String × String) × ℚ) :=
  (sort_desc Prod.snd
    ((supplier_group_keys perf sup).map
      (fun k => (k, group_mean perf sup metric k)))).take 15

/-! ## Supplier risk view (supplier_risk.py lines 52-68) -/

/-- `performance_data["Quarter"].max()`. -/
def latest_quarter (perf : List PerfRow) : String :=
  ((perf.map (fun p => p.quarter)).max?).getD ""

/-- `performance_data[performance_data["Quarter"] == latest_quarter]`. -/
def latest_performance (perf : List PerfRow) : List PerfRow :=
  perf.filter (fun p => p.quarter = latest_quarter perf)

/-- `filtered_suppliers.merge(latest_performance[...], on="SupplierID",
how="left")`, keeping the merged OverallScore: a supplier with no
latest-quarter performance row gets a missing (NaN) score. -/
def merge_suppliers_latest (sups : List SupplierRow) (perf : List PerfRow) :
    List (SupplierRow × Option ℚ) :=
  sups.flatMap (fun s =>
    match (latest_performance perf).filter (fun p => p.supplierID = s.supplierID) with
    | [] => [(s, none)]
    | ms => ms.map (fun p => (s, some p.overallScore)))

/-- The score-range filter `(df["OverallScore"] >= min) & (df["OverallScore"]
<= max)`: a NaN score compares false on both sides, so rows with a missing
score are excluded. -/
def score_range_filter (lo hi : ℚ) (rows : List (SupplierRow × Option ℚ)) :
    List (SupplierRow × Option ℚ) :=
  rows.filter (fun r => match r.2 with
    | some v => decide (lo ≤ v ∧ v ≤ hi)
    | none => false)

/-! ## Shared lemmas about the descending insertion sort -/

theorem insert_desc_perm {α : Type} (key : α → ℚ) (x : α) (l : List α) :
    (insert_desc key x l).Perm (x :: l) := by
  induction l with
  | nil => simp [insert_desc]
  | cons y ys ih =>
    unfold insert_desc
    split
    · exact List.Perm.refl _
    · exact (List.Perm.cons y ih).trans (List.Perm.swap x y ys)

theorem sort_desc_perm {α : Type} (key : α → ℚ) (l : List α) :
    (sort_desc key l).Perm l := by
  induction l with
  | nil => simp [sort_desc]
  | cons x xs ih =>
    unfold sort_desc at ih ⊢
    simpa using (insert_desc_perm key x (xs.foldr (insert_desc key) [])).trans
      (List.Perm.cons x ih)

theorem insert_desc_sorted {α : Type} (key : α → ℚ) (x : α) (l : List α)
    (h : l.Pairwise (fun a b => key b ≤ key a)) :
    (insert_desc key x l).Pairwise (fun a b => key b ≤ key a) := by
  induction l with
  | nil => simp [insert_desc]
  | cons y ys ih =>
    unfold insert_desc
    rw [List.pairwise_cons] at h
    obtain ⟨hy, hys⟩ := h
    split
    · rename_i hxy
      refine List.Pairwise.cons ?_ (List.Pairwise.cons hy hys)
      intro b hb
      rcases List.mem_cons.mp hb with rfl | hb'
      · exact hxy
      · exact le_trans (hy b hb') hxy
    · rename_i hxy
      push_neg at hxy
      refine List.Pairwise.cons ?_ (ih hys)
      intro b hb
      rcases List.mem_cons.mp ((insert_desc_perm key x ys).mem_iff.mp hb) with rfl | h'
      · exact le_of_lt hxy
      · exact hy b h'

theorem sort_desc_sorted {α : Type} (key : α → ℚ) (l : List α) :
    (sort_desc key l).Pairwise (fun a b => key b ≤ key a) := by
  induction l with
  | nil => simp [sort_desc]
  | cons x xs ih =>
    unfold sort_desc at ih ⊢
    exact insert_desc_sorted key x _ ih

theorem mem_sort_desc {α : Type} {key : α → ℚ} {l : List α} {a : α} :
    a ∈ sort_desc key l ↔ a ∈ l :=
  (sort_desc_perm key l).mem_iff

theorem mem_distinct_aux {α : Type} [DecidableEq α] (l acc : List α) (a : α) :
    (a ∈ l.foldl (fun acc x => if x ∈ acc then acc else acc ++ [x]) acc) ↔
      a ∈ acc ∨ a ∈ l := by
  induction l generalizing acc with
  | nil => simp
  | cons x xs ih =>
    simp only [List.foldl_cons]
    split_ifs with hx
    · rw [ih]
      simp only [List.mem_cons]
      constructor
      · rintro (h | h)
        · exact Or.inl h
        · exact Or.inr (Or.inr h)
      · rintro (h | rfl | h)
        · exact Or.inl h
        · exact Or.inl hx
        · exact Or.inr h
    · rw [ih]
      simp only [List.mem_append, List.mem_singleton, List.mem_cons]
      tauto

theorem mem_distinct {α : Type} [DecidableEq α] {l : List α} {a : α} :
    a ∈ distinct l ↔ a ∈ l := by
  unfold distinct
  rw [mem_distinct_aux]
  simp

/-! ## Claims -/

/-- C3: filtering with the "All" sentinel is the identity; filtering by a
specific value returns exactly the rows whose column equals that value, in
original order (a sublist of the input); and the category and business-unit
filters commute. (Mutation cannot arise: filters are pure functions of the
input list.) -/
theorem filter_engine_correct (t : List SpendRow) (c b : String) :
    filter_by_category "All Categories" t = t ∧
    filter_by_business_unit "All Business Units" t = t ∧
    (c ≠ "All Categories" →
      filter_by_category c t = t.filter (fun r => r.category = c) ∧
      (∀ r, r ∈ filter_by_category c t ↔ r ∈ t ∧ r.category = c) ∧
      (filter_by_category c t).Sublist t) ∧
    filter_by_business_unit b (filter_by_category c t) =
      filter_by_category c (filter_by_business_unit b t) := by
  refine ⟨by simp [filter_by_category], by simp [filter_by_business_unit], ?_, ?_⟩
  · intro hc
    refine ⟨by simp [filter_by_category, hc], ?_, ?_⟩
    · intro r
      simp [filter_by_category, hc, List.mem_filter]
    · simp only [filter_by_category, hc, if_false]
      exact List.filter_sublist t
  · unfold filter_by_category filter_by_business_unit
    split_ifs <;> try rfl
    rw [List.filter_filter, List.filter_filter]
    apply List.filter_congr
    intro x _
    exact Bool.and_comm _ _

/-- C3 witness: concrete instantiation with a specific category filter. -/
theorem filter_engine_correct_witness :
    filter_by_category "IT"
        [⟨"s1", "IT", "sw", "HR", "2023-01", 5⟩, ⟨"s2", "Ops", "fm", "HR", "2023-01", 7⟩] =
      [⟨"s1", "IT", "sw", "HR", "2023-01", 5⟩] :=
  ((filter_engine_correct
    [⟨"s1", "IT", "sw", "HR", "2023-01", 5⟩, ⟨"s2", "Ops", "fm", "HR", "2023-01", 7⟩]
    "IT" "HR").2.2.1 (by decide)).1.trans (by decide)

/-- C4: for a chronologically ordered, nonempty sequence of non-negative
period sums with first element `first` and last element `last`, the period
change equals `(last - first) / first * 100` when `first` is positive and is
defined as 0 when `first` is 0; in particular first 1000 / last 1200 gives
+20% and first 0 / last 500 gives 0. -/
theorem period_change_correct (monthly : List ℚ) (first last : ℚ)
    (hf : monthly.head? = some first) (hl : monthly.getLast? = some last) :
    (0 < first → period_change_pct monthly = (last - first) / first * 100) ∧
    (first = 0 → period_change_pct monthly = 0) ∧
    period_change_pct [1000, 1100, 1200] = 20 ∧
    period_change_pct [0, 250, 500] = 0 := by
  refine ⟨?_, ?_, by norm_num [period_change_pct], by norm_num [period_change_pct]⟩
  · intro hpos
    simp [period_change_pct, hf, hl, hpos]
  · intro h0
    simp [period_change_pct, hf, hl, h0]

/-- C4 witness: the three-month series 1000, 1100, 1200. -/
theorem period_change_correct_witness :
    period_change_pct [1000, 1100, 1200] = (1200 - 1000) / 1000 * 100 :=
  (period_change_correct [1000, 1100, 1200] 1000 1200 rfl rfl).1 (by norm_num)

theorem top3_concentration_example_eval :
    top3_concentration [("A", 100), ("B", 100), ("C", 100), ("D", 700)] = 90 := by
  have h1 : group_sum [("A", 100), ("B", 100), ("C", 100), ("D", 700)] =
      [("A", 100), ("B", 100), ("C", 100), ("D", 700)] := by
    norm_num +decide [group_sum, distinct]
  have h2 : sort_desc Prod.snd [(("A", 100) : String × ℚ), ("B", 100), ("C", 100), ("D", 700)] =
      [("D", 700), ("A", 100), ("B", 100), ("C", 100)] := by
    norm_num [sort_desc, insert_desc]
  norm_num [top3_concentration, top3_spend, suppliers_df, total_spend, h1, h2]

/-- C2 counterexample: the code sorts the per-entity totals descending before
taking the top 3, so for totals [100, 100, 100, 700] the top-3 sum is
700 + 100 + 100 = 900 and the concentration is 90%, not the claimed 30%. -/
theorem top3_concentration_example_refuted :
    top3_concentration [("A", 100), ("B", 100), ("C", 100), ("D", 700)] = 90 ∧
    (90 : ℚ) ≠ 30 := by
  constructor
  · exact top3_concentration_example_eval
  · norm_num

/-- C2 as amended: the concentration ratio is the sum of the top-3 entities'
totals (the three largest, i.e. the first three of a descending-sorted
permutation of the grouped totals) divided by the total over all entities,
times 100, and is 0 when the total is 0; for totals [100, 100, 100, 700] the
top-3 sum is 900 and the ratio is 90%. -/
theorem top3_concentration_correct (rows : List (String × ℚ)) :
    (total_spend rows = 0 → top3_concentration rows = 0) ∧
    (0 < total_spend rows →
      top3_concentration rows = top3_spend rows / total_spend rows * 100) ∧
    top3_spend rows = (((sort_desc Prod.snd (group_sum rows)).take 3).map Prod.snd).sum ∧
    (sort_desc Prod.snd (group_sum rows)).Perm (group_sum rows) ∧
    (sort_desc Prod.snd (group_sum rows)).Pairwise (fun a b => b.2 ≤ a.2) ∧
    top3_concentration [("A", 100), ("B", 100), ("C", 100), ("D", 700)] = 90 := by
  refine ⟨?_, ?_, ?_, sort_desc_perm _ _, sort_desc_sorted _ _,
    top3_concentration_example_eval⟩
  · intro h
    simp [top3_concentration, h]
  · intro h
    simp [top3_concentration, h]
  · unfold top3_spend suppliers_df
    split_ifs with h
    · rw [List.take_take]
      norm_num
    · have hlen : (sort_desc Prod.snd (group_sum rows)).length < 3 := by
        rw [not_le, List.length_take] at h
        omega
      rw [List.take_of_length_le (le_of_lt (lt_of_lt_of_le hlen (by norm_num))),
        List.take_of_length_le (le_of_lt hlen)]

/-- C8: the heatmap builder returns the explicit empty-state chart whenever
either dimension has fewer than 2 distinct values — in particular for a table
with exactly 1 distinct x-value — and otherwise builds the grid in which a
(y, x) pair with no matching rows has value 0; every rendered annotation
belongs to a nonzero cell, is money-formatted with suffix M for values
≥ 1,000,000 and K for values in [1,000, 1,000,000), and has light text exactly
when its value exceeds half the maximum cell value of the grid. -/
theorem create_risk_heatmap_correct (t : List HeatRow) :
    ((heat_xs t).length < 2 ∨ (heat_ys t).length < 2 →
      create_risk_heatmap t =
        .emptyState "Not enough data to generate heatmap. Try adjusting your filters.") ∧
    create_risk_heatmap [⟨"a", "y1", 5⟩, ⟨"a", "y2", 7⟩] =
      .emptyState "Not enough data to generate heatmap. Try adjusting your filters." ∧
    (2 ≤ (heat_xs t).length → 2 ≤ (heat_ys t).length →
      create_risk_heatmap t = .grid (grid_cells t) (grid_annotations t) ∧
      (∀ yv ∈ heat_ys t, ∀ xv ∈ heat_xs t,
        (∀ r ∈ t, ¬(r.y = yv ∧ r.x = xv)) → (yv, xv, (0 : ℚ)) ∈ grid_cells t) ∧
      (∀ a ∈ grid_annotations t, ∃ v : ℚ, v ≠ 0 ∧ (a.y, a.x, v) ∈ grid_cells t ∧
        a.label = format_money v ∧
        (1000000 ≤ v → a.label = .millions (v / 1000000)) ∧
        (1000 ≤ v → v < 1000000 → a.label = .thousands (v / 1000)) ∧
        (v < 1000 → a.label = .dollars v) ∧
        (a.lightText = true ↔ grid_max t / 2 < v))) := by
  refine ⟨?_, by decide, ?_⟩
  · intro h
    unfold create_risk_heatmap
    rw [if_pos (Or.inr h)]
  · intro hx hy
    have hne : t.isEmpty = false := by
      cases t with
      | nil => simp [heat_xs, distinct] at hx
      | cons a l => rfl
    refine ⟨?_, ?_, ?_⟩
    · unfold create_risk_heatmap
      rw [if_neg]
      rintro (he | hl | hl)
      · rw [hne] at he
        exact Bool.false_ne_true he
      · omega
      · omega
    · intro yv hyv xv hxv hno
      have hfilter : t.filter (fun r => decide (r.y = yv ∧ r.x = xv)) = [] := by
        rw [List.filter_eq_nil_iff]
        intro r hr
        simpa using hno r hr
      unfold grid_cells
      rw [List.mem_flatMap]
      refine ⟨yv, hyv, ?_⟩
      rw [List.mem_map]
      refine ⟨xv, hxv, ?_⟩
      have hcv : cell_value t yv xv = 0 := by
        unfold cell_value
        rw [hfilter]
        rfl
      rw [hcv]
    · intro a ha
      unfold grid_annotations at ha
      rw [List.mem_filterMap] at ha
      obtain ⟨c, hc, hsome⟩ := ha
      split_ifs at hsome with h0
      obtain rfl := Option.some.inj hsome
      refine ⟨c.2.2, h0, ?_, rfl, ?_, ?_, ?_, ?_⟩
      · exact hc
      · intro hM
        unfold format_money
        rw [if_pos hM]
      · intro hK hKM
        unfold format_money
        rw [if_neg (by linarith), if_pos hK]
      · intro hD
        unfold format_money
        rw [if_neg (by linarith), if_neg (by linarith)]
      · simp

/-! ### C9 supporting lemmas -/

theorem filterMap_pair_some (p : PerfRow) (l : List SupplierRow) :
    List.filterMap (fun pr => Option.map (fun s => (pr.1, s)) pr.2)
        (l.map (fun s => (p, some s))) = l.map (fun s => (p, s)) := by
  induction l with
  | nil => rfl
  | cons a l ih => simp [List.filterMap_cons, ih]

theorem matched_rows_cons (p : PerfRow) (rest : List PerfRow) (sup : List SupplierRow) :
    matched_rows (p :: rest) sup =
      ((sup.filter (fun s => s.supplierID = p.supplierID)).map (fun s => (p, s))) ++
        matched_rows rest sup := by
  unfold matched_rows merge_left_perf
  rw [List.flatMap_cons, List.filterMap_append]
  congr 1
  rcases e : sup.filter (fun s => s.supplierID = p.supplierID) with _ | ⟨s, ss⟩
  · rw [e]
    rfl
  · rw [e]
    exact filterMap_pair_some p (s :: ss)

theorem matched_rows_filter (perf : List PerfRow) (sup : List SupplierRow) :
    matched_rows
        (perf.filter (fun p => sup.any (fun s => s.supplierID = p.supplierID))) sup =
      matched_rows perf sup := by
  induction perf with
  | nil => rfl
  | cons p rest ih =>
    by_cases hp : sup.any (fun s => s.supplierID = p.supplierID) = true
    · rw [List.filter_cons, if_pos hp, matched_rows_cons, matched_rows_cons, ih]
    · rw [List.filter_cons, if_neg hp, matched_rows_cons, ih]
      have hnil : sup.filter (fun s => s.supplierID = p.supplierID) = [] := by
        rw [List.filter_eq_nil_iff]
        intro s hs hcontra
        exact hp (List.any_eq_true.mpr ⟨s, hs, hcontra⟩)
      rw [hnil]
      rfl

theorem mem_matched_rows (perf : List PerfRow) (sup : List SupplierRow)
    (pr : PerfRow × SupplierRow) (h : pr ∈ matched_rows perf sup) :
    pr.2 ∈ sup ∧ pr.2.supplierID = pr.1.supplierID := by
  unfold matched_rows at h
  rw [List.mem_filterMap] at h
  obtain ⟨x, hx, hmap⟩ := h
  unfold merge_left_perf at hx
  rw [List.mem_flatMap] at hx
  obtain ⟨p, hp, hxmem⟩ := hx
  rcases e : sup.filter (fun s => s.supplierID = p.supplierID) with _ | ⟨s, ss⟩
  · rw [e] at hxmem
    simp only [List.mem_singleton] at hxmem
    subst hxmem
    simp at hmap
  · rw [e] at hxmem
    rw [List.mem_map] at hxmem
    obtain ⟨s', hs', rfl⟩ := hxmem
    have hmap' : (p, s') = pr := by simpa using hmap
    subst hmap'
    have hmem : s' ∈ sup.filter (fun s => s.supplierID = p.supplierID) := by
      rw [e]
      exact hs'
    rw [List.mem_filter] at hmem
    exact ⟨hmem.1, by simpa using hmem.2⟩

/-- C9: joining performance rows to suppliers on SupplierID silently drops
performance rows whose SupplierID has no supplier record: the ranking computed
from all performance rows equals the ranking computed from the matched rows
only, and every entry of the ranking output carries a SupplierID that exists
in the supplier table. -/
theorem unmatched_performance_dropped (perf : List PerfRow) (sup : List SupplierRow)
    (metric : PerfRow → ℚ) :
    create_supplier_ranking perf sup metric =
      create_supplier_ranking
        (perf.filter (fun p => sup.any (fun s => s.supplierID = p.supplierID))) sup metric ∧
    (create_supplier_ranking perf sup metric).all
      (fun kv => sup.any (fun s => s.supplierID = kv.1.1)) = true := by
  constructor
  · simp only [create_supplier_ranking, supplier_group_keys, group_mean,
      matched_rows_filter]
  · rw [List.all_eq_true]
    intro kv hkv
    unfold create_supplier_ranking at hkv
    have h1 := List.mem_of_mem_take hkv
    rw [mem_sort_desc, List.mem_map] at h1
    obtain ⟨k, hk, rfl⟩ := h1
    unfold supplier_group_keys at hk
    rw [mem_distinct, List.mem_map] at hk
    obtain ⟨pr, hpr, hkey⟩ := hk
    obtain ⟨hsup, hsid⟩ := mem_matched_rows perf sup pr hpr
    rw [List.any_eq_true]
    refine ⟨pr.2, hsup, ?_⟩
    have hk1 : k.1 = pr.1.supplierID := by
      rw [← hkey]
    simp only [hk1]
    exact decide_eq_true hsid

/-- C10: a supplier row whose SupplierID has no performance record for the
latest quarter receives a missing OverallScore from the left merge, and the
inclusive score-range filter excludes it for every choice of bounds: no row
with that SupplierID survives the filter. -/
theorem missing_latest_score_excluded (sups : List SupplierRow) (perf : List PerfRow)
    (sid : String) (lo hi : ℚ)
    (h : ∀ p ∈ latest_performance perf, p.supplierID ≠ sid) :
    (∀ r ∈ merge_suppliers_latest sups perf, r.1.supplierID = sid → r.2 = none) ∧
    (score_range_filter lo hi (merge_suppliers_latest sups perf)).filter
      (fun r => r.1.supplierID = sid) = [] := by
  have key : ∀ r ∈ merge_suppliers_latest sups perf, r.1.supplierID = sid → r.2 = none := by
    intro r hr hrs
    unfold merge_suppliers_latest at hr
    rw [List.mem_flatMap] at hr
    obtain ⟨s, hs, hrmem⟩ := hr
    rcases e : (latest_performance perf).filter (fun p => p.supplierID = s.supplierID)
      with _ | ⟨p, ps⟩
    · rw [e] at hrmem
      simp only [List.mem_singleton] at hrmem
      rw [hrmem]
    · rw [e] at hrmem
      rw [List.mem_map] at hrmem
      obtain ⟨p', hp', rfl⟩ := hrmem
      exfalso
      have hmem : p' ∈ (latest_performance perf).filter
          (fun p => p.supplierID = s.supplierID) := by
        rw [e]
        exact hp'
      rw [List.mem_filter] at hmem
      refine h p' hmem.1 ?_
      have hps : p'.supplierID = s.supplierID := by simpa using hmem.2
      rw [hps]
      exact hrs
  refine ⟨key, ?_⟩
  rw [List.filter_eq_nil_iff]
  intro r hr
  unfold score_range_filter at hr
  rw [List.mem_filter] at hr
  intro hrs
  have hnone := key r hr.1 (by simpa using hrs)
  have hpred := hr.2
  rw [hnone] at hpred
  simp at hpred

/-- C10 witness: supplier S1 has no latest-quarter performance record, so it
is excluded from the score-filtered risk view for the default range 1–10. -/
theorem missing_latest_score_excluded_witness :
    (score_range_filter 1 10
      (merge_suppliers_latest [⟨"S1", "Acme", "IT", "US"⟩]
        [⟨"S2", "2023-Q4", 7, 7, 7, 7⟩])).filter
      (fun r => r.1.supplierID = "S1") = [] :=
  (missing_latest_score_excluded [⟨"S1", "Acme", "IT", "US"⟩]
    [⟨"S2", "2023-Q4", 7, 7, 7, 7⟩] "S1" 1 10 (by decide)).2

/-- C2 witness: the concentration formula applied to the (positive-total)
example group. -/
theorem top3_concentration_correct_witness :
    top3_concentration [("A", 100), ("B", 100), ("C", 100), ("D", 700)] =
      top3_spend [("A", 100), ("B", 100), ("C", 100), ("D", 700)] /
        total_spend [("A", 100), ("B", 100), ("C", 100), ("D", 700)] * 100 :=
  (top3_concentration_correct [("A", 100), ("B", 100), ("C", 100), ("D", 700)]).2.1
    (by norm_num [total_spend])

/-- C8 witness: a table with exactly 1 distinct x-value yields the explicit
empty-state chart. -/
theorem create_risk_heatmap_correct_witness :
    create_risk_heatmap [⟨"a", "y1", 5⟩, ⟨"a", "y2", 7⟩] =
      .emptyState "Not enough data to generate heatmap. Try adjusting your filters." :=
  (create_risk_heatmap_correct [⟨"a", "y1", 5⟩, ⟨"a", "y2", 7⟩]).1 (by decide)

/-- C5 counterexample: in the Segmentation Overview the percentile is guarded
by `if total_spend > 0 else 0`, so with the single (hence highest-spending)
entity having total 0 the code yields 0%, while the claimed
fraction-of-entities-≤ formula yields 100%. -/
theorem spend_percentile_refuted :
    spend_percentile_seg [0] 0 = 0 ∧
    ((([(0 : ℚ)].filter (fun x => x ≤ 0)).length : ℚ) /
      (([(0 : ℚ)] : List ℚ).length : ℚ)) * 100 = 100 := by
  constructor
  · decide
  · norm_num

/-- C5 as amended: the Supplier 360° percentile always equals the fraction of
entities with total ≤ the given entity's total, times 100, so the
highest-spending entity of any non-empty set scores 100 there; the
Segmentation Overview percentile agrees only when the entity's total is
positive, and is defined as 0 otherwise. -/
theorem spend_percentile_correct (totals : List ℚ) (m : ℚ)
    (hne : totals ≠ []) (hmax : ∀ x ∈ totals, x ≤ m) :
    spend_percentile_view360 totals m = 100 ∧
    (0 < m → spend_percentile_seg totals m = 100) ∧
    (¬ 0 < m → spend_percentile_seg totals m = 0) := by
  have hfilter : totals.filter (fun x => decide (x ≤ m)) = totals := by
    rw [List.filter_eq_self]
    intro a ha
    exact decide_eq_true (hmax a ha)
  have hlen : (totals.length : ℚ) ≠ 0 := by
    simp only [ne_eq, Nat.cast_eq_zero, List.length_eq_zero]
    exact hne
  have h360 : spend_percentile_view360 totals m = 100 := by
    unfold spend_percentile_view360
    rw [hfilter, div_self hlen, one_mul]
  refine ⟨h360, ?_, ?_⟩
  · intro hpos
    simp [spend_percentile_seg, hpos, h360]
  · intro hnonpos
    simp [spend_percentile_seg, hnonpos]

/-- C5 witness: the highest of the totals [5, 10] has a positive total, so
both percentile computations give 100%. -/
theorem spend_percentile_correct_witness :
    spend_percentile_view360 [5, 10] 10 = 100 ∧
    spend_percentile_seg [5, 10] 10 = 100 :=
  ⟨(spend_percentile_correct [5, 10] 10 (by decide) (by decide)).1,
   (spend_percentile_correct [5, 10] 10 (by decide) (by decide)).2.1 (by norm_num)⟩

/-- C6: whenever validation of an uploaded file fails — for any reason:
unsupported extension, parse exception, missing columns, non-numeric Amount
or null Suppliers — the upload handler leaves the Data Store unchanged
(`validate_data` is a total function in this model: the source wraps the body
in `try`/`except`, so it never raises). -/
theorem failed_validation_preserves_store (store : DataStore) (file : UploadFile)
    (data_type : String) (h : (validate_data file data_type).1 = false) :
    upload_step store file data_type = store := by
  unfold upload_step
  rcases e : validate_data file data_type with ⟨ok, msg, d⟩
  rw [e] at h
  simp only at h
  subst h
  rfl

/-- C6 witness: an upload with an unsupported extension leaves a concrete
store untouched. -/
theorem failed_validation_preserves_store_witness :
    upload_step ⟨⟨["A"], []⟩, ⟨["B"], []⟩, ⟨["C"], []⟩, ⟨["D"], []⟩⟩
      ⟨"data.txt", none⟩ "Spend Data" =
      ⟨⟨["A"], []⟩, ⟨["B"], []⟩, ⟨["C"], []⟩, ⟨["D"], []⟩⟩ :=
  failed_validation_preserves_store _ ⟨"data.txt", none⟩ "Spend Data" (by decide)

theorem missing_columns_nil_iff (dt : String) (data : DataTable) :
    missing_columns dt data = [] ↔ ∀ c ∈ required_columns dt, c ∈ data.cols := by
  unfold missing_columns
  rw [List.filter_eq_nil_iff]
  simp

/-- C1: for a parsed table and a declared data type, the validator accepts iff
every required column is present (and, for Spend Data, the Amount column is
numeric and no row has a null Supplier); when required columns are missing the
message names exactly those columns; and on acceptance the returned table is
the input table itself (no coercion, no row filtering). -/
theorem validate_data_correct (name : String) (data : DataTable) (dt : String)
    (hext : ends_with name ".csv" = true ∨ ends_with name ".xlsx" = true)
    (hdt : dt = "Spend Data" ∨ dt = "Supplier Master Data" ∨ dt = "Contract Data" ∨
      dt = "Performance Data") :
    ((validate_data ⟨name, some data⟩ dt).1 = true ↔
      ((∀ c ∈ required_columns dt, c ∈ data.cols) ∧
        (dt = "Spend Data" →
          is_numeric_dtype (data.col "Amount") = true ∧
          null_count (data.col "Supplier") = 0))) ∧
    (missing_columns dt data ≠ [] →
      (validate_data ⟨name, some data⟩ dt).2.1 =
        missing_columns_message (missing_columns dt data)) ∧
    ((validate_data ⟨name, some data⟩ dt).1 = true →
      (validate_data ⟨name, some data⟩ dt).2.2 = some data) := by
  have hcols := missing_columns_nil_iff dt data
  rcases hdt with rfl | rfl | rfl | rfl
  · -- Spend Data
    by_cases hm : missing_columns "Spend Data" data = []
    · by_cases hnum : is_numeric_dtype (data.col "Amount") = true
      · by_cases hnull : null_count (data.col "Supplier") = 0
        · have he : validate_data ⟨name, some data⟩ "Spend Data" =
              (true, "Data validated successfully", some data) := by
            unfold validate_data
            rw [if_pos hext]
            simp [hm, hnum, hnull]
          rw [he]
          exact ⟨iff_of_true rfl ⟨hcols.mp hm, fun _ => ⟨hnum, hnull⟩⟩,
            fun h => absurd hm h, fun _ => rfl⟩
        · have he : validate_data ⟨name, some data⟩ "Spend Data" =
              (false, "Found " ++ toString (null_count (data.col "Supplier")) ++
                " rows with missing supplier information", none) := by
            unfold validate_data
            rw [if_pos hext]
            simp [hm, hnum, Nat.pos_of_ne_zero hnull]
          rw [he]
          refine ⟨?_, fun h => absurd hm h, by simp⟩
          simp only [Bool.false_eq_true, false_iff]
          rintro ⟨-, h⟩
          exact hnull (h trivial).2
      · have he : validate_data ⟨name, some data⟩ "Spend Data" =
            (false, "Amount column must contain numeric values", none) := by
          unfold validate_data
          rw [if_pos hext]
          simp [hm, hnum]
        rw [he]
        refine ⟨?_, fun h => absurd hm h, by simp⟩
        simp only [Bool.false_eq_true, false_iff]
        rintro ⟨-, h⟩
        exact hnum (h trivial).1
    · have he : validate_data ⟨name, some data⟩ "Spend Data" =
          (false, missing_columns_message (missing_columns "Spend Data" data), none) := by
        unfold validate_data
        rw [if_pos hext]
        simp [hm]
      rw [he]
      refine ⟨?_, fun _ => rfl, by simp⟩
      simp only [Bool.false_eq_true, false_iff]
      rintro ⟨hall, -⟩
      exact absurd (hcols.mpr hall) hm
  · -- Supplier Master Data
    by_cases hm : missing_columns "Supplier Master Data" data = []
    · have he : validate_data ⟨name, some data⟩ "Supplier Master Data" =
          (true, "Data validated successfully", some data) := by
        unfold validate_data
        rw [if_pos hext]
        simp [hm]
      rw [he]
      exact ⟨iff_of_true rfl ⟨hcols.mp hm, fun h => absurd h (by decide)⟩,
        fun h => absurd hm h, fun _ => rfl⟩
    · have he : validate_data ⟨name, some data⟩ "Supplier Master Data" =
          (false, missing_columns_message (missing_columns "Supplier Master Data" data),
            none) := by
        unfold validate_data
        rw [if_pos hext]
        simp [hm]
      rw [he]
      refine ⟨?_, fun _ => rfl, by simp⟩
      simp only [Bool.false_eq_true, false_iff]
      rintro ⟨hall, -⟩
      exact absurd (hcols.mpr hall) hm
  · -- Contract Data
    by_cases hm : missing_columns "Contract Data" data = []
    · have he : validate_data ⟨name, some data⟩ "Contract Data" =
          (true, "Data validated successfully", some data) := by
        unfold validate_data
        rw [if_pos hext]
        simp [hm]
      rw [he]
      exact ⟨iff_of_true rfl ⟨hcols.mp hm, fun h => absurd h (by decide)⟩,
        fun h => absurd hm h, fun _ => rfl⟩
    · have he : validate_data ⟨name, some data⟩ "Contract Data" =
          (false, missing_columns_message (missing_columns "Contract Data" data), none) := by
        unfold validate_data
        rw [if_pos hext]
        simp [hm]
      rw [he]
      refine ⟨?_, fun _ => rfl, by simp⟩
      simp only [Bool.false_eq_true, false_iff]
      rintro ⟨hall, -⟩
      exact absurd (hcols.mpr hall) hm
  · -- Performance Data
    by_cases hm : missing_columns "Performance Data" data = []
    · have he : validate_data ⟨name, some data⟩ "Performance Data" =
          (true, "Data validated successfully", some data) := by
        unfold validate_data
        rw [if_pos hext]
        simp [hm]
      rw [he]
      exact ⟨iff_of_true rfl ⟨hcols.mp hm, fun h => absurd h (by decide)⟩,
        fun h => absurd hm h, fun _ => rfl⟩
    · have he : validate_data ⟨name, some data⟩ "Performance Data" =
          (false, missing_columns_message (missing_columns "Performance Data" data), none) := by
        unfold validate_data
        rw [if_pos hext]
        simp [hm]
      rw [he]
      refine ⟨?_, fun _ => rfl, by simp⟩
      simp only [Bool.false_eq_true, false_iff]
      rintro ⟨hall, -⟩
      exact absurd (hcols.mpr hall) hm

/-- C1 witness: a well-formed Spend Data upload is accepted and returned
unchanged. -/
theorem validate_data_correct_witness :
    (validate_data
      ⟨"s.csv", some ⟨["Supplier", "Category", "SubCategory", "BusinessUnit", "Date", "Amount"],
        [[("Supplier", .str "Acme"), ("Category", .str "IT"), ("SubCategory", .str "sw"),
          ("BusinessUnit", .str "HR"), ("Date", .str "2023-01-01"), ("Amount", .num 10)]]⟩⟩
      "Spend Data").2.2 =
      some ⟨["Supplier", "Category", "SubCategory", "BusinessUnit", "Date", "Amount"],
        [[("Supplier", .str "Acme"), ("Category", .str "IT"), ("SubCategory", .str "sw"),
          ("BusinessUnit", .str "HR"), ("Date", .str "2023-01-01"), ("Amount", .num 10)]]⟩ :=
  (validate_data_correct "s.csv"
    ⟨["Supplier", "Category", "SubCategory", "BusinessUnit", "Date", "Amount"],
      [[("Supplier", .str "Acme"), ("Category", .str "IT"), ("SubCategory", .str "sw"),
        ("BusinessUnit", .str "HR"), ("Date", .str "2023-01-01"), ("Amount", .num 10)]]⟩
    "Spend Data" (Or.inl (by decide)) (Or.inl rfl)).2.2 (by decide)

/-- C7: the supplier-concentration insight rules, evaluated on the top-3
concentration `c` and the supplier count `n` (the code sees
`len(suppliers_df) = min n 10`), are the claimed fixed-priority,
mutually exclusive chain: dependency-risk exactly when `c > 75`, fragmentation
exactly when `c < 30` and `n > 7`, balanced exactly when `50 ≤ c ≤ 75`, and
no message otherwise. -/
theorem concentration_insight_rules (c : ℚ) (n : Nat) :
    (concentration_insight c (min n 10) = some .dependencyRisk ↔ 75 < c) ∧
    (concentration_insight c (min n 10) = some .fragmentation ↔ (c < 30 ∧ 7 < n)) ∧
    (concentration_insight c (min n 10) = some .balanced ↔ (50 ≤ c ∧ c ≤ 75)) ∧
    (concentration_insight c (min n 10) = none ↔
      (30 ≤ c ∧ c < 50) ∨ (c < 30 ∧ n ≤ 7)) := by
  have hmin : 7 < min n 10 ↔ 7 < n := by omega
  unfold concentration_insight
  split_ifs with h1 h2 h3
  · refine ⟨by simp [h1], ?_, ?_, ?_⟩
    · simp only [Option.some.injEq, reduceCtorEq, false_iff]
      rintro ⟨hc, -⟩; linarith
    · simp only [Option.some.injEq, reduceCtorEq, false_iff]
      rintro ⟨-, hc⟩; linarith
    · simp only [reduceCtorEq, false_iff]
      rintro (⟨-, h6⟩ | ⟨h5, -⟩) <;> linarith
  · obtain ⟨hc30, hn⟩ := h2
    refine ⟨by simp [h1], ?_, ?_, ?_⟩
    · simp only [Option.some.injEq, reduceCtorEq, true_iff]
      exact ⟨hc30, hmin.mp hn⟩
    · simp only [Option.some.injEq, reduceCtorEq, false_iff]
      rintro ⟨h5, -⟩; linarith
    · simp only [reduceCtorEq, false_iff]
      rintro (⟨h5, -⟩ | ⟨-, h6⟩)
      · linarith
      · have := hmin.mp hn; omega
  · obtain ⟨hc50, hc75⟩ := h3
    refine ⟨by simp [h1], ?_, by simp [hc50, hc75], ?_⟩
    · simp only [Option.some.injEq, reduceCtorEq, false_iff]
      rintro ⟨h5, -⟩; linarith
    · simp only [reduceCtorEq, false_iff]
      rintro (⟨-, h6⟩ | ⟨h5, -⟩) <;> linarith
  · push_neg at h1
    refine ⟨by simp [h1, not_lt], ?_, ?_, ?_⟩
    · simp only [reduceCtorEq, false_iff]
      intro hx
      exact h2 ⟨hx.1, hmin.mpr hx.2⟩
    · simp only [reduceCtorEq, false_iff]
      exact h3
    · simp only [true_iff]
      by_cases hc : c < 30
      · right
        refine ⟨hc, ?_⟩
        by_contra hn7
        exact h2 ⟨hc, by omega⟩
      · left
        push_neg at hc
        refine ⟨hc, ?_⟩
        by_contra hc50
        push_neg at hc50
        exact h3 ⟨hc50, h1⟩
